import Mathlib

/-!
Formal model of the calibration / quantity-estimation core of the
ai-wallpaper-visualizer application (src/App.tsx, src/components/Workspace.tsx,
src/services/geminiService.ts, src/types.ts).

Conventions of the shallow embedding:
* JavaScript numbers are modelled as real numbers (`ℝ`); `Math.sqrt` is
  `Real.sqrt`, `Math.abs` is `|·|`, `Math.ceil` is `Int.ceil`, and JS
  division by zero (which yields Infinity/NaN) corresponds to Lean's
  `x / 0 = 0` convention — every place the source divides, the divisor is
  shown nonzero where the claims need it.
* JS truthiness on a number `v` (`!v`) is `v = 0` (NaN is not modelled:
  real numbers have no NaN).
* Nullable values (`p1: Point | null`, images, results) are `Option`s.
* Display formatting (`toFixed`) is omitted: `EstimateResult` holds the
  numeric values the source formats for display.
-/

namespace Wallpaper

/-- `Point` from src/types.ts: `{x: number, y: number}` in normalized
image coordinates. -/
structure Point where
  x : ℝ
  y : ℝ

/-- `CalibrationData` from src/types.ts. -/
structure CalibrationData where
  p1 : Option Point
  p2 : Option Point
  realWorldValueCm : ℝ

/-- `SwatchType` from src/types.ts. -/
inductive SwatchType where
  | INDIVIDUAL
  | PANORAMA
deriving DecidableEq

/-- The `panoramaSpecs` record of `AppState` (src/types.ts). -/
structure PanoramaSpecs where
  rollWidthCm : ℝ
  totalRolls : ℤ
  designHeightCm : ℝ

/-- The `individualRollSpecs` record of `AppState` (src/types.ts). -/
structure IndividualRollSpecs where
  widthCm : ℝ
  lengthM : ℝ

/-- `AppState` from src/types.ts. Image payloads are opaque strings
(base64 data URLs). -/
structure AppState where
  roomImage : Option String
  swatchImage : Option String
  swatchType : SwatchType
  panoramaSpecs : PanoramaSpecs
  individualRollSpecs : IndividualRollSpecs
  calibration : CalibrationData
  wallMask : List Point
  isRendering : Bool
  renderedResult : Option String
  errorMessage : Option String

/-- `ToolMode` from src/types.ts. -/
inductive ToolMode where
  | IDLE
  | CALIBRATE
  | SELECT_WALL
deriving DecidableEq

/-- The numeric content of the record returned by `estimateProject`
(src/App.tsx lines 196-201). The source formats `area`/`width`/`height`
with `toFixed` for display; the numbers themselves are modelled. -/
structure EstimateResult where
  area : ℝ
  width : ℝ
  height : ℝ
  rolls : ℤ

/-- `pixelsPerCm` (src/App.tsx lines 144-155): `null` when `p1` or `p2`
is null or `realWorldValueCm` is falsy (0); otherwise
`sqrt(dx*dx + dy*dy) / realWorldValueCm`. -/
noncomputable def pixelsPerCm (c : CalibrationData) : Option ℝ :=
  match c.p1, c.p2 with
  | some p1, some p2 =>
      if c.realWorldValueCm = 0 then none
      else
        let dx := p1.x - p2.x
        let dy := p1.y - p2.y
        some (Real.sqrt (dx * dx + dy * dy) / c.realWorldValueCm)
  | _, _ => none

/-- One term `x_i * y_j - x_j * y_i` of the shoelace accumulation
(src/App.tsx lines 163-164). -/
def cross (a b : Point) : ℝ :=
  a.x * b.y - b.x * a.y

/-- The signed shoelace sum of src/App.tsx lines 160-165: the loop pairs
index `i` with `j = (i+1) % n`, i.e. it pairs the list with its rotation
by one. -/
noncomputable def shoelaceSum (pts : List Point) : ℝ :=
  ((pts.zip (pts.rotate 1)).map (fun e => cross e.1 e.2)).sum

/-- `areaNormalized` after line 166 of src/App.tsx:
`Math.abs(signed sum) / 2`. -/
noncomputable def areaNormalizedOf (pts : List Point) : ℝ :=
  |shoelaceSum pts| / 2

/-- `Math.min(...)` over a spread list. `Math.min()` with no arguments is
`Infinity`; the empty case is unreachable at the call sites (the estimator
guard requires at least 3 mask points), so it is given an arbitrary value. -/
noncomputable def jsMin : List ℝ → ℝ
  | [] => 0
  | x :: xs => xs.foldl min x

/-- `Math.max(...)` over a spread list; empty case unreachable as for
`jsMin`. -/
noncomputable def jsMax : List ℝ → ℝ
  | [] => 0
  | x :: xs => xs.foldl max x

/-- `distCalNormalized` (src/App.tsx lines 168-170):
`sqrt(|dx| * |dx| + |dy| * |dy|)`. -/
noncomputable def distCalNormalized (p1 p2 : Point) : ℝ :=
  let dxCal := |p1.x - p2.x|
  let dyCal := |p1.y - p2.y|
  Real.sqrt (dxCal * dxCal + dyCal * dyCal)

/-- `cmPerNormalizedUnit` (src/App.tsx lines 171-172):
`realWorldValueCm / distCalNormalized`. -/
noncomputable def cmPerUnitOf (v : ℝ) (p1 p2 : Point) : ℝ :=
  v / distCalNormalized p1 p2

/-- The Euclidean distance between two normalized points, as the spec
words it (§4.2): used to compare the source's `distCalNormalized`
(which takes absolute values before squaring) with the spec's formula. -/
noncomputable def euclideanDistance (p q : Point) : ℝ :=
  Real.sqrt ((p.x - q.x) ^ 2 + (p.y - q.y) ^ 2)

/-- The scale factor as a function of the whole calibration record; equal
to `cmPerUnitOf` once the estimator guard has ensured `p1`/`p2` non-null.
The null case is unreachable at the call sites. -/
noncomputable def calCmPerUnit (c : CalibrationData) : ℝ :=
  match c.p1, c.p2 with
  | some p1, some p2 => cmPerUnitOf c.realWorldValueCm p1 p2
  | _, _ => 0

/-- `rollAreaM2` (src/App.tsx lines 190-192):
`(widthCm / 100) * lengthM`. -/
noncomputable def rollAreaM2 (spec : IndividualRollSpecs) : ℝ :=
  (spec.widthCm / 100) * spec.lengthM

/-- The INDIVIDUAL branch of `requiredRolls` (src/App.tsx line 193):
`Math.ceil((areaM2 * 1.1) / rollAreaM2)`. -/
noncomputable def individualRolls (spec : IndividualRollSpecs) (areaM2 : ℝ) : ℤ :=
  ⌈(areaM2 * 1.1) / rollAreaM2 spec⌉

/-- The PANORAMA branch of `requiredRolls` (src/App.tsx line 188):
`Math.ceil(widthCm / rollWidthCm)`. -/
noncomputable def panoramaRolls (rollWidthCm widthCm : ℝ) : ℤ :=
  ⌈widthCm / rollWidthCm⌉

/-- The body of `estimateProject` after the guard (src/App.tsx lines
160-201), with the non-null assertions `p1!`/`p2!` discharged by the
explicit `p1 p2` arguments. -/
noncomputable def mkEstimate (s : AppState) (p1 p2 : Point) : EstimateResult :=
  let areaNormalized := areaNormalizedOf s.wallMask
  let cmPerNormalizedUnit := cmPerUnitOf s.calibration.realWorldValueCm p1 p2
  let areaCm2 := areaNormalized * (cmPerNormalizedUnit * cmPerNormalizedUnit)
  let areaM2 := areaCm2 / 10000
  let minX := jsMin (s.wallMask.map Point.x)
  let maxX := jsMax (s.wallMask.map Point.x)
  let widthCm := (maxX - minX) * cmPerNormalizedUnit
  let minY := jsMin (s.wallMask.map Point.y)
  let maxY := jsMax (s.wallMask.map Point.y)
  let heightCm := (maxY - minY) * cmPerNormalizedUnit
  let requiredRolls : ℤ :=
    match s.swatchType with
    | SwatchType.PANORAMA => panoramaRolls s.panoramaSpecs.rollWidthCm widthCm
    | SwatchType.INDIVIDUAL => individualRolls s.individualRollSpecs areaM2
  { area := areaM2, width := widthCm, height := heightCm, rolls := requiredRolls }

/-- `estimateProject` (src/App.tsx lines 157-209). The guard
`!pixelsPerCm || wallMask.length < 3` reads JS truthiness of the nullable
number `pixelsPerCm`: falsy when `null` or `0`, modelled as
`(pixelsPerCm c).getD 0 = 0`. After the guard the source dereferences
`p1!`/`p2!`; the `none` fallback branch is unreachable (claim C9). -/
noncomputable def estimateProject (s : AppState) : Option EstimateResult :=
  if (pixelsPerCm s.calibration).getD 0 = 0 ∨ s.wallMask.length < 3 then
    none
  else
    match s.calibration.p1, s.calibration.p2 with
    | some p1, some p2 => some (mkEstimate s p1 p2)
    | _, _ => none

/-- Which image field `handleFileUpload` targets (its `type` parameter,
src/App.tsx line 74). -/
inductive UploadType where
  | room
  | swatch
deriving DecidableEq

/-- The state update performed by `handleFileUpload` once the file is
read (src/App.tsx lines 82-86): set the corresponding image field to the
base64 payload and clear `renderedResult`. -/
def handleFileUpload (s : AppState) (t : UploadType) (base64 : String) : AppState :=
  match t with
  | UploadType.room => { s with roomImage := some base64, renderedResult := none }
  | UploadType.swatch => { s with swatchImage := some base64, renderedResult := none }

/-- The geometric state read and written by `handleMouseDown`
(src/components/Workspace.tsx). -/
structure WorkspaceModel where
  calibration : CalibrationData
  wallMask : List Point

/-- `handleMouseDown` (src/components/Workspace.tsx lines 146-161),
restricted to its geometric effect (the canvas-existence guard and the
pixel-to-normalized conversion produce the clicked point `q`).
In CALIBRATE mode: `if (!calibration.p1 || (calibration.p1 && calibration.p2))`
starts a new segment, else completes it. In SELECT_WALL mode the point is
appended; in IDLE nothing happens. -/
def handleMouseDown (mode : ToolMode) (w : WorkspaceModel) (q : Point) : WorkspaceModel :=
  match mode with
  | ToolMode.CALIBRATE =>
      match w.calibration.p1, w.calibration.p2 with
      | none, _ =>
          { w with calibration := { w.calibration with p1 := some q, p2 := none } }
      | some _, some _ =>
          { w with calibration := { w.calibration with p1 := some q, p2 := none } }
      | some _, none =>
          { w with calibration := { w.calibration with p2 := some q } }
  | ToolMode.SELECT_WALL => { w with wallMask := w.wallMask ++ [q] }
  | ToolMode.IDLE => w

/-- One part of the model response (src/services/geminiService.ts lines
74-78): either text or inline image data. -/
inductive Part where
  | text (s : String)
  | inlineData (data : String)
deriving DecidableEq

/-- The `for` loop of src/services/geminiService.ts lines 74-78: the
first part carrying inline data, if any. -/
def firstInlineData : List Part → Option String
  | [] => none
  | Part.inlineData d :: _ => some d
  | Part.text _ :: rest => firstInlineData rest

/-- Boolean prefix test on character lists (helper for modelling
`String.prototype.includes`). -/
def charsPrefix : List Char → List Char → Bool
  | [], _ => true
  | _ :: _, [] => false
  | a :: as, b :: bs => a == b && charsPrefix as bs

/-- Substring occurrence on character lists. -/
def charsContains (pat : List Char) : List Char → Bool
  | [] => charsPrefix pat []
  | b :: bs => charsPrefix pat (b :: bs) || charsContains pat bs

/-- JS `message.includes(pat)` (src/services/geminiService.ts line 82). -/
def strIncludes (s pat : String) : Bool :=
  charsContains pat.data s.data

/-- The `try` body of `renderWallpaper` (src/services/geminiService.ts
lines 46-80) from the point the external call resolves: an upstream
failure propagates; on success the first inline-data part becomes the
data URL, and absence of any inline data throws
"No image data returned from AI.". -/
def renderTryBody (response : Except String (List Part)) : Except String String :=
  match response with
  | Except.error e => Except.error e
  | Except.ok parts =>
      match firstInlineData parts with
      | some d => Except.ok ("data:image/png;base64," ++ d)
      | none => Except.error "No image data returned from AI."

/-- `renderWallpaper` (src/services/geminiService.ts lines 4-87) as a
function of the ambient API key and the resolved external response: the
missing-key throw happens before the `try`, and the `catch` remaps any
error whose message includes "Requested entity was not found" to
KEY_RESET_REQUIRED, rethrowing every other error unchanged. -/
def renderWallpaper (apiKey : Option String)
    (response : Except String (List Part)) : Except String String :=
  match apiKey with
  | none => Except.error "API Key is missing."
  | some _ =>
      match renderTryBody response with
      | Except.ok url => Except.ok url
      | Except.error e =>
          if strIncludes e "Requested entity was not found" then
            Except.error "KEY_RESET_REQUIRED"
          else
            Except.error e

/-- A concrete calibration: segment from (0,0) to (0.1,0), declared to be
100 cm (the end-to-end scenario of spec §8). -/
noncomputable def scenarioCal : CalibrationData :=
  { p1 := some ⟨0, 0⟩, p2 := some ⟨0.1, 0⟩, realWorldValueCm := 100 }

/-- A concrete wall mask: a right triangle of normalized area 0.002. -/
noncomputable def scenarioMask : List Point :=
  [⟨0, 0⟩, ⟨0.1, 0⟩, ⟨0.1, 0.04⟩]

/-- The end-to-end scenario state (spec §8): INDIVIDUAL rolls of width
53 cm and length 10 m, calibration `scenarioCal`, mask `scenarioMask`. -/
noncomputable def scenarioState : AppState :=
  { roomImage := none
    swatchImage := none
    swatchType := SwatchType.INDIVIDUAL
    panoramaSpecs := { rollWidthCm := 70, totalRolls := 7, designHeightCm := 325 }
    individualRollSpecs := { widthCm := 53, lengthM := 10 }
    calibration := scenarioCal
    wallMask := scenarioMask
    isRendering := false
    renderedResult := none
    errorMessage := none }

/-- The same geometry with the PANORAMA product type (roll width 70 cm). -/
noncomputable def scenarioStatePan : AppState :=
  { scenarioState with swatchType := SwatchType.PANORAMA }

/-- A state whose calibration has a negative real-world value (-1 cm) but
distinct points and a 3-point mask. -/
noncomputable def negCalState : AppState :=
  { scenarioState with
    calibration := { p1 := some ⟨0, 0⟩, p2 := some ⟨0.1, 0⟩, realWorldValueCm := -1 } }

/-- Proof helper: the last element of the nonempty list `a :: l`. -/
def lastOf (a : Point) : List Point → Point
  | [] => a
  | b :: t => lastOf b t

/-- Proof helper: the sum of `cross` over consecutive pairs of an open
path (no closing edge). -/
noncomputable def pathSum : List Point → ℝ
  | a :: b :: rest => cross a b + pathSum (b :: rest)
  | _ => 0

theorem cross_self (a : Point) : cross a a = 0 := by
  simp [cross, mul_comm]

theorem cross_antisymm (a b : Point) : cross b a = -cross a b := by
  unfold cross
  ring

theorem lastOf_append_singleton (a x : Point) (l : List Point) :
    lastOf a (l ++ [x]) = x := by
  induction l generalizing a with
  | nil => rfl
  | cons b t ih => simpa [lastOf] using ih b

theorem getLast?_eq_lastOf (a : Point) (l : List Point) :
    (a :: l).getLast? = some (lastOf a l) := by
  induction l generalizing a with
  | nil => rfl
  | cons b t ih => simpa [lastOf, List.getLast?_cons_cons] using ih b

theorem pathSum_cons_cons (a b : Point) (t : List Point) :
    pathSum (a :: b :: t) = cross a b + pathSum (b :: t) := by
  rfl

theorem zip_rot_sum (a x0 : Point) (l : List Point) :
    (((a :: l).zip (l ++ [x0])).map (fun e => cross e.1 e.2)).sum
      = pathSum (a :: l) + cross (lastOf a l) x0 := by
  induction l generalizing a with
  | nil => simp [pathSum, lastOf]
  | cons b t ih =>
      have : (a :: b :: t).zip ((b :: t) ++ [x0])
          = (a, b) :: ((b :: t).zip (t ++ [x0])) := rfl
      rw [this, List.map_cons, List.sum_cons, ih b, pathSum_cons_cons]
      simp [lastOf]
      ring

theorem shoelaceSum_cons (a : Point) (l : List Point) :
    shoelaceSum (a :: l) = pathSum (a :: l) + cross (lastOf a l) a := by
  unfold shoelaceSum
  rw [List.rotate_cons_succ, List.rotate_zero]
  exact zip_rot_sum a a l

theorem pathSum_append_singleton (a x : Point) (l : List Point) :
    pathSum ((a :: l) ++ [x]) = pathSum (a :: l) + cross (lastOf a l) x := by
  induction l generalizing a with
  | nil => simp [pathSum, lastOf, pathSum_cons_cons]
  | cons b t ih =>
      have h1 : (a :: b :: t) ++ [x] = a :: ((b :: t) ++ [x]) := rfl
      have h2 : (b :: t) ++ [x] = b :: (t ++ [x]) := rfl
      rw [h1, h2, pathSum_cons_cons, ← h2, ih b, pathSum_cons_cons]
      simp [lastOf]
      ring

theorem pathSum_reverse (a : Point) (l : List Point) :
    pathSum ((a :: l).reverse) = -pathSum (a :: l) := by
  induction l generalizing a with
  | nil => simp [pathSum]
  | cons b t ih =>
      rcases hrev : (b :: t).reverse with _ | ⟨c, m⟩
      · exact absurd (congrArg List.length hrev) (by simp)
      · have hlast : lastOf c m = b := by
          have h1 : (c :: m).getLast? = some (lastOf c m) := getLast?_eq_lastOf c m
          have h2 : (c :: m).getLast? = some b := by
            rw [← hrev, List.getLast?_reverse]
            rfl
          rw [h1] at h2
          exact Option.some.inj h2
        have hrw : (a :: b :: t).reverse = (c :: m) ++ [a] := by
          rw [List.reverse_cons, hrev]
        rw [hrw, pathSum_append_singleton, hlast, ← hrev, ih b,
          pathSum_cons_cons]
        rw [cross_antisymm a b]
        ring

theorem shoelaceSum_reverse (l : List Point) :
    shoelaceSum l.reverse = -shoelaceSum l := by
  rcases l with _ | ⟨a, l⟩
  · simp [shoelaceSum]
  · rcases hrev : (a :: l).reverse with _ | ⟨c, m⟩
    · exact absurd (congrArg List.length hrev) (by simp)
    · have hc : c = lastOf a l := by
        have h1 : (a :: l).reverse.head? = some (lastOf a l) := by
          rw [List.head?_reverse, getLast?_eq_lastOf]
        rw [hrev] at h1
        exact Option.some.inj h1
      have hlast : lastOf c m = a := by
        have h1 : (c :: m).getLast? = some (lastOf c m) := getLast?_eq_lastOf c m
        have h2 : (c :: m).getLast? = some a := by
          rw [← hrev, List.getLast?_reverse]
          rfl
        rw [h1] at h2
        exact Option.some.inj h2
      rw [shoelaceSum_cons, hlast, ← hrev, pathSum_reverse,
        shoelaceSum_cons, hc, cross_antisymm (lastOf a l) a]
      ring

theorem shoelaceSum_rotate_one (l : List Point) :
    shoelaceSum (l.rotate 1) = shoelaceSum l := by
  rcases l with _ | ⟨a, l⟩
  · simp
  · rw [List.rotate_cons_succ, List.rotate_zero]
    rcases l with _ | ⟨b, t⟩
    · simp
    · have h2 : (b :: t) ++ [a] = b :: (t ++ [a]) := rfl
      rw [h2, shoelaceSum_cons b (t ++ [a]), ← h2, pathSum_append_singleton,
        lastOf_append_singleton, shoelaceSum_cons a (b :: t),
        pathSum_cons_cons]
      simp only [lastOf]
      ring

theorem shoelaceSum_rotate (l : List Point) (k : ℕ) :
    shoelaceSum (l.rotate k) = shoelaceSum l := by
  induction k generalizing l with
  | zero => rw [List.rotate_zero]
  | succ n ih =>
      have : l.rotate (n + 1) = (l.rotate 1).rotate n := by
        rw [List.rotate_rotate, Nat.add_comm]
      rw [this, ih (l.rotate 1), shoelaceSum_rotate_one]

theorem distCalNormalized_eq_euclidean (p q : Point) :
    distCalNormalized p q = euclideanDistance p q := by
  simp only [distCalNormalized, euclideanDistance]
  rw [abs_mul_abs_self, abs_mul_abs_self]
  congr 1
  ring

theorem distCalNormalized_eq_zero_iff (p q : Point) :
    distCalNormalized p q = 0 ↔ p = q := by
  rcases p with ⟨px, py⟩
  rcases q with ⟨qx, qy⟩
  simp only [distCalNormalized, Point.mk.injEq]
  rw [Real.sqrt_eq_zero (by positivity)]
  constructor
  · intro h
    constructor
    · have h1 : |px - qx| * |px - qx| = 0 := by
        nlinarith [mul_self_nonneg |px - qx|, mul_self_nonneg |py - qy|]
      have h2 := abs_eq_zero.mp (mul_self_eq_zero.mp h1)
      linarith [sub_eq_zero.mp h2]
    · have h1 : |py - qy| * |py - qy| = 0 := by
        nlinarith [mul_self_nonneg |px - qx|, mul_self_nonneg |py - qy|]
      have h2 := abs_eq_zero.mp (mul_self_eq_zero.mp h1)
      linarith [sub_eq_zero.mp h2]
  · rintro ⟨h1, h2⟩
    rw [h1, h2]
    simp

theorem distCalNormalized_pos (p q : Point) (h : p ≠ q) :
    0 < distCalNormalized p q := by
  rcases lt_or_eq_of_le (Real.sqrt_nonneg _ :
      (0:ℝ) ≤ distCalNormalized p q) with hlt | heq
  · exact hlt
  · exact absurd ((distCalNormalized_eq_zero_iff p q).mp heq.symm) h

/-- The square root inside `pixelsPerCm` (no absolute values, src/App.tsx
lines 151-153) computes the same distance as `distCalNormalized`. -/
theorem pixelDist_eq_distCal (p q : Point) :
    Real.sqrt ((p.x - q.x) * (p.x - q.x) + (p.y - q.y) * (p.y - q.y))
      = distCalNormalized p q := by
  simp only [distCalNormalized]
  rw [abs_mul_abs_self, abs_mul_abs_self]

/-- Characterization of the falsiness of `pixelsPerCm`: the JS guard
`!pixelsPerCm` holds exactly when a calibration point is missing, the
real-world value is 0, or the two points coincide. -/
theorem pixelsPerCm_falsy_iff (c : CalibrationData) :
    (pixelsPerCm c).getD 0 = 0 ↔
      c.p1 = none ∨ c.p2 = none ∨ c.realWorldValueCm = 0 ∨ c.p1 = c.p2 := by
  rcases hc1 : c.p1 with _ | p1
  · simp [pixelsPerCm, hc1]
  · rcases hc2 : c.p2 with _ | p2
    · simp [pixelsPerCm, hc1, hc2]
    · by_cases hv : c.realWorldValueCm = 0
      · simp [pixelsPerCm, hc1, hc2, hv]
      · simp only [pixelsPerCm, hc1, hc2, if_neg hv, Option.getD_some]
        rw [div_eq_zero_iff, pixelDist_eq_distCal, distCalNormalized_eq_zero_iff]
        simp [hv, Option.some.injEq]

theorem estimateProject_eq_none_iff (s : AppState) :
    estimateProject s = none ↔
      (pixelsPerCm s.calibration).getD 0 = 0 ∨ s.wallMask.length < 3 := by
  by_cases hg : (pixelsPerCm s.calibration).getD 0 = 0 ∨ s.wallMask.length < 3
  · simp [estimateProject, hg]
  · have h0 : ¬ ((pixelsPerCm s.calibration).getD 0 = 0) := fun h => hg (Or.inl h)
    have hdisj := (pixelsPerCm_falsy_iff s.calibration).not.mp h0
    push_neg at hdisj
    obtain ⟨hp1, hp2, _, _⟩ := hdisj
    rcases hc1 : s.calibration.p1 with _ | p1
    · exact absurd hc1 hp1
    · rcases hc2 : s.calibration.p2 with _ | p2
      · exact absurd hc2 hp2
      · simp [estimateProject, hg, hc1, hc2]

/-- When the guard passes, `estimateProject` reduces to the body applied
at the two calibration points. -/
theorem estimateProject_eq_some (s : AppState) (p1 p2 : Point)
    (hc1 : s.calibration.p1 = some p1) (hc2 : s.calibration.p2 = some p2)
    (hg : ¬ ((pixelsPerCm s.calibration).getD 0 = 0 ∨ s.wallMask.length < 3)) :
    estimateProject s = some (mkEstimate s p1 p2) := by
  simp [estimateProject, hg, hc1, hc2]

/-- Inversion: a produced estimate comes from the body at the (non-null)
calibration points, with the guard passing. -/
theorem estimateProject_some_inv (s : AppState) (r : EstimateResult)
    (h : estimateProject s = some r) :
    ∃ p1 p2, s.calibration.p1 = some p1 ∧ s.calibration.p2 = some p2 ∧
      ¬ ((pixelsPerCm s.calibration).getD 0 = 0 ∨ s.wallMask.length < 3) ∧
      r = mkEstimate s p1 p2 := by
  by_cases hg : (pixelsPerCm s.calibration).getD 0 = 0 ∨ s.wallMask.length < 3
  · rw [(estimateProject_eq_none_iff s).mpr hg] at h
    cases h
  · have h0 : ¬ ((pixelsPerCm s.calibration).getD 0 = 0) := fun hx => hg (Or.inl hx)
    have hdisj := (pixelsPerCm_falsy_iff s.calibration).not.mp h0
    push_neg at hdisj
    obtain ⟨hp1, hp2, _, _⟩ := hdisj
    rcases hc1 : s.calibration.p1 with _ | p1
    · exact absurd hc1 hp1
    · rcases hc2 : s.calibration.p2 with _ | p2
      · exact absurd hc2 hp2
      · refine ⟨p1, p2, rfl, rfl, hg, ?_⟩
        rw [estimateProject_eq_some s p1 p2 hc1 hc2 hg] at h
        exact (Option.some.inj h).symm

theorem scenario_distCal :
    distCalNormalized ⟨0, 0⟩ ⟨0.1, 0⟩ = 0.1 := by
  rw [distCalNormalized_eq_euclidean]
  simp only [euclideanDistance]
  rw [show ((⟨0, 0⟩ : Point).x - (⟨0.1, 0⟩ : Point).x) ^ 2
        + ((⟨0, 0⟩ : Point).y - (⟨0.1, 0⟩ : Point).y) ^ 2 = (0.1 : ℝ) ^ 2 by
      norm_num]
  exact Real.sqrt_sq (by norm_num)

theorem scenario_cmPerUnit :
    cmPerUnitOf 100 ⟨0, 0⟩ ⟨0.1, 0⟩ = 1000 := by
  rw [cmPerUnitOf, scenario_distCal]
  norm_num

theorem scenario_calCmPerUnit : calCmPerUnit scenarioCal = 1000 := by
  simp only [calCmPerUnit, scenarioCal]
  exact scenario_cmPerUnit

theorem scenario_shoelace : shoelaceSum scenarioMask = 0.004 := by
  simp only [scenarioMask, shoelaceSum]
  rw [List.rotate_cons_succ, List.rotate_zero]
  simp [cross]
  norm_num

theorem scenario_area : areaNormalizedOf scenarioMask = 0.002 := by
  rw [areaNormalizedOf, scenario_shoelace]
  rw [abs_of_nonneg (by norm_num)]
  norm_num

theorem scenario_xs :
    scenarioMask.map Point.x = [0, 0.1, 0.1] := by
  simp [scenarioMask]

theorem scenario_ys :
    scenarioMask.map Point.y = [0, 0, 0.04] := by
  simp [scenarioMask]

theorem scenario_minmax :
    jsMin [(0 : ℝ), 0.1, 0.1] = 0 ∧ jsMax [(0 : ℝ), 0.1, 0.1] = 0.1 ∧
    jsMin [(0 : ℝ), 0, 0.04] = 0 ∧ jsMax [(0 : ℝ), 0, 0.04] = 0.04 := by
  refine ⟨?_, ?_, ?_, ?_⟩ <;> norm_num [jsMin, jsMax, min_def, max_def]

theorem scenario_guard :
    ¬ ((pixelsPerCm scenarioState.calibration).getD 0 = 0
        ∨ scenarioState.wallMask.length < 3) := by
  rw [not_or]
  constructor
  · rw [pixelsPerCm_falsy_iff]
    push_neg
    exact ⟨by simp [scenarioState, scenarioCal],
      by simp [scenarioState, scenarioCal],
      by norm_num [scenarioState, scenarioCal],
      by norm_num [scenarioState, scenarioCal, Point.mk.injEq]⟩
  · simp [scenarioState, scenarioMask]

theorem scenarioPan_guard :
    ¬ ((pixelsPerCm scenarioStatePan.calibration).getD 0 = 0
        ∨ scenarioStatePan.wallMask.length < 3) :=
  scenario_guard

theorem scenarioPan_estimate :
    estimateProject scenarioStatePan = some ⟨0.2, 100, 40, 2⟩ := by
  rw [estimateProject_eq_some scenarioStatePan ⟨0, 0⟩ ⟨0.1, 0⟩ rfl rfl
    scenarioPan_guard]
  congr 1
  simp only [mkEstimate, scenarioStatePan, scenarioState, scenarioCal]
  rw [scenario_cmPerUnit, scenario_area, scenario_xs, scenario_ys]
  obtain ⟨hmina, hmaxa, hminb, hmaxb⟩ := scenario_minmax
  rw [hmina, hmaxa, hminb, hmaxb]
  have harea : (0.002 : ℝ) * (1000 * 1000) / 10000 = 0.2 := by norm_num
  have hw : ((0.1 : ℝ) - 0) * 1000 = 100 := by norm_num
  rw [harea, hw]
  have hrolls : panoramaRolls 70 100 = 2 := by
    simp only [panoramaRolls]
    rw [Int.ceil_eq_iff]
    norm_num
  rw [hrolls]
  congr 1 <;> norm_num

theorem negCal_guard :
    ¬ ((pixelsPerCm negCalState.calibration).getD 0 = 0
        ∨ negCalState.wallMask.length < 3) := by
  rw [not_or]
  constructor
  · rw [pixelsPerCm_falsy_iff]
    push_neg
    exact ⟨by simp [negCalState, scenarioState],
      by simp [negCalState, scenarioState],
      by norm_num [negCalState, scenarioState],
      by norm_num [negCalState, scenarioState, Point.mk.injEq]⟩
  · simp [negCalState, scenarioState, scenarioMask]

theorem negCal_produces_result : estimateProject negCalState ≠ none := by
  rw [Ne, estimateProject_eq_none_iff]
  exact negCal_guard

/-- For a PANORAMA state, the produced roll count is the ceiling of the
mask's X extent (scaled) over the roll width. -/
theorem mkEstimate_rolls_panorama (s : AppState) (p1 p2 : Point)
    (hp1 : s.calibration.p1 = some p1) (hp2 : s.calibration.p2 = some p2)
    (hty : s.swatchType = SwatchType.PANORAMA) :
    (mkEstimate s p1 p2).rolls
      = panoramaRolls s.panoramaSpecs.rollWidthCm
          ((jsMax (s.wallMask.map Point.x) - jsMin (s.wallMask.map Point.x))
            * calCmPerUnit s.calibration) := by
  simp only [mkEstimate, hty, calCmPerUnit, hp1, hp2]

/-- For an INDIVIDUAL state, the produced roll count is `individualRolls`
applied to the produced area. -/
theorem mkEstimate_rolls_individual (s : AppState) (p1 p2 : Point)
    (hty : s.swatchType = SwatchType.INDIVIDUAL) :
    (mkEstimate s p1 p2).rolls
      = individualRolls s.individualRollSpecs ((mkEstimate s p1 p2).area) := by
  simp only [mkEstimate, hty]

theorem scenario_estimate :
    estimateProject scenarioState = some ⟨0.2, 100, 40, 1⟩ := by
  rw [estimateProject_eq_some scenarioState ⟨0, 0⟩ ⟨0.1, 0⟩ rfl rfl scenario_guard]
  congr 1
  simp only [mkEstimate, scenarioState, scenarioCal]
  rw [scenario_cmPerUnit, scenario_area, scenario_xs, scenario_ys]
  obtain ⟨hmina, hmaxa, hminb, hmaxb⟩ := scenario_minmax
  rw [hmina, hmaxa, hminb, hmaxb]
  have harea : (0.002 : ℝ) * (1000 * 1000) / 10000 = 0.2 := by norm_num
  rw [harea]
  have hrolls : individualRolls { widthCm := 53, lengthM := 10 } 0.2 = 1 := by
    simp only [individualRolls, rollAreaM2]
    rw [show ((0.2 : ℝ) * 1.1) / ((53 / 100) * 10) = 0.22 / 5.3 by norm_num]
    rw [Int.ceil_eq_iff]
    norm_num
  rw [hrolls]
  congr 1 <;> norm_num

/-- A workspace with a half-completed calibration segment (only `p1`
set), as left by toggling out of CALIBRATE mode after one click. -/
noncomputable def halfCal : WorkspaceModel :=
  { calibration := { p1 := some ⟨0.2, 0.2⟩, p2 := none, realWorldValueCm := 100 }
    wallMask := [] }

/-- C1 (amended): `estimateProject` returns no result exactly when `p1`
or `p2` is null, or `realWorldValueCm` equals 0, or the calibration
points coincide, or the wall mask has fewer than 3 points; it never
throws (it is a total function). For a negative `realWorldValueCm` with
distinct points the guard passes and a result is produced — see the
counterexample. -/
theorem c1_estimator_none_iff (s : AppState) :
    estimateProject s = none ↔
      s.calibration.p1 = none ∨ s.calibration.p2 = none ∨
      s.calibration.realWorldValueCm = 0 ∨
      s.calibration.p1 = s.calibration.p2 ∨
      s.wallMask.length < 3 := by
  rw [estimateProject_eq_none_iff, pixelsPerCm_falsy_iff]
  tauto

/-- C1 (counterexample): a state with `realWorldValueCm = -1 ≤ 0`,
distinct calibration points and a 3-point mask for which the estimator
does produce a result, refuting the claim that a null result is returned
whenever `realWorldValueCm ≤ 0`. -/
theorem c1_negative_value_counterexample :
    negCalState.calibration.realWorldValueCm ≤ 0 ∧
    estimateProject negCalState ≠ none := by
  constructor
  · norm_num [negCalState, scenarioState]
  · exact negCal_produces_result

/-- C2: for distinct calibration points and a positive real-world value,
the estimator's scale factor `cmPerNormalizedUnit` is strictly positive
and equals the value divided by the Euclidean distance of the points. -/
theorem c2_scale_factor_positive (p1 p2 : Point) (v : ℝ)
    (hne : p1 ≠ p2) (hv : 0 < v) :
    0 < cmPerUnitOf v p1 p2 ∧
    cmPerUnitOf v p1 p2 = v / euclideanDistance p1 p2 := by
  constructor
  · exact div_pos hv (distCalNormalized_pos p1 p2 hne)
  · simp only [cmPerUnitOf, distCalNormalized_eq_euclidean]

theorem c2_scale_factor_positive_witness :
    0 < cmPerUnitOf 100 ⟨0, 0⟩ ⟨0.1, 0⟩ ∧
    cmPerUnitOf 100 ⟨0, 0⟩ ⟨0.1, 0⟩ = 100 / euclideanDistance ⟨0, 0⟩ ⟨0.1, 0⟩ :=
  c2_scale_factor_positive ⟨0, 0⟩ ⟨0.1, 0⟩ 100
    (by norm_num [Point.mk.injEq]) (by norm_num)

/-- C3: for PANORAMA states, the produced roll count is
`ceil(widthCm / rollWidthCm)` with `widthCm` the mask's bounding-box X
extent times the scale factor; two PANORAMA states with equal
calibration, equal mask X extents and equal roll widths produce the same
roll count regardless of polygon area, polygon height or
`designHeightCm`. -/
theorem c3_panorama_rolls (s sB : AppState) (r rB : EstimateResult)
    (hty : s.swatchType = SwatchType.PANORAMA)
    (htyB : sB.swatchType = SwatchType.PANORAMA)
    (hs : estimateProject s = some r)
    (hsB : estimateProject sB = some rB)
    (hcal : s.calibration = sB.calibration)
    (hx : jsMax (s.wallMask.map Point.x) - jsMin (s.wallMask.map Point.x)
        = jsMax (sB.wallMask.map Point.x) - jsMin (sB.wallMask.map Point.x))
    (hw : s.panoramaSpecs.rollWidthCm = sB.panoramaSpecs.rollWidthCm) :
    r.rolls = panoramaRolls s.panoramaSpecs.rollWidthCm
        ((jsMax (s.wallMask.map Point.x) - jsMin (s.wallMask.map Point.x))
          * calCmPerUnit s.calibration)
      ∧ r.rolls = rB.rolls := by
  obtain ⟨p1, p2, hp1, hp2, _, hr⟩ := estimateProject_some_inv s r hs
  obtain ⟨q1, q2, hq1, hq2, _, hrB⟩ := estimateProject_some_inv sB rB hsB
  have h1 : r.rolls = panoramaRolls s.panoramaSpecs.rollWidthCm
      ((jsMax (s.wallMask.map Point.x) - jsMin (s.wallMask.map Point.x))
        * calCmPerUnit s.calibration) := by
    rw [hr]
    exact mkEstimate_rolls_panorama s p1 p2 hp1 hp2 hty
  have h2 : rB.rolls = panoramaRolls sB.panoramaSpecs.rollWidthCm
      ((jsMax (sB.wallMask.map Point.x) - jsMin (sB.wallMask.map Point.x))
        * calCmPerUnit sB.calibration) := by
    rw [hrB]
    exact mkEstimate_rolls_panorama sB q1 q2 hq1 hq2 htyB
  refine ⟨h1, ?_⟩
  rw [h1, h2, hcal, hx, hw]

theorem c3_panorama_rolls_witness :
    (⟨0.2, 100, 40, 2⟩ : EstimateResult).rolls
        = panoramaRolls scenarioStatePan.panoramaSpecs.rollWidthCm
            ((jsMax (scenarioStatePan.wallMask.map Point.x)
                - jsMin (scenarioStatePan.wallMask.map Point.x))
              * calCmPerUnit scenarioStatePan.calibration)
      ∧ (⟨0.2, 100, 40, 2⟩ : EstimateResult).rolls
        = (⟨0.2, 100, 40, 2⟩ : EstimateResult).rolls :=
  c3_panorama_rolls scenarioStatePan scenarioStatePan
    ⟨0.2, 100, 40, 2⟩ ⟨0.2, 100, 40, 2⟩ rfl rfl
    scenarioPan_estimate scenarioPan_estimate rfl rfl rfl

/-- C4: for INDIVIDUAL states, the produced roll count is
`individualRolls` of the produced area, `individualRolls` equals
`ceil((areaM2 * 1.1) / rollAreaM2)`, it is monotone non-decreasing in the
area, and for nonnegative areas it dominates `ceil(areaM2 / rollAreaM2)`
(the roll area being positive for an actual roll spec). -/
theorem c4_individual_rolls (s : AppState) (r : EstimateResult) (a b : ℝ)
    (hty : s.swatchType = SwatchType.INDIVIDUAL)
    (hs : estimateProject s = some r)
    (hR : 0 < rollAreaM2 s.individualRollSpecs)
    (hab : a ≤ b) (ha : 0 ≤ a) :
    r.rolls = individualRolls s.individualRollSpecs r.area ∧
    individualRolls s.individualRollSpecs a
        = ⌈(a * 1.1) / rollAreaM2 s.individualRollSpecs⌉ ∧
    individualRolls s.individualRollSpecs a
        ≤ individualRolls s.individualRollSpecs b ∧
    ⌈a / rollAreaM2 s.individualRollSpecs⌉
        ≤ individualRolls s.individualRollSpecs a := by
  obtain ⟨p1, p2, _, _, _, hr⟩ := estimateProject_some_inv s r hs
  refine ⟨?_, rfl, ?_, ?_⟩
  · rw [hr]
    exact mkEstimate_rolls_individual s p1 p2 hty
  · apply Int.ceil_le_ceil
    apply div_le_div_of_nonneg_right ?_ hR.le
    nlinarith
  · apply Int.ceil_le_ceil
    apply div_le_div_of_nonneg_right ?_ hR.le
    nlinarith

theorem c4_individual_rolls_witness :
    (⟨0.2, 100, 40, 1⟩ : EstimateResult).rolls
        = individualRolls scenarioState.individualRollSpecs
            ((⟨0.2, 100, 40, 1⟩ : EstimateResult).area) ∧
    individualRolls scenarioState.individualRollSpecs 1
        = ⌈((1 : ℝ) * 1.1) / rollAreaM2 scenarioState.individualRollSpecs⌉ ∧
    individualRolls scenarioState.individualRollSpecs 1
        ≤ individualRolls scenarioState.individualRollSpecs 2 ∧
    ⌈(1 : ℝ) / rollAreaM2 scenarioState.individualRollSpecs⌉
        ≤ individualRolls scenarioState.individualRollSpecs 1 :=
  c4_individual_rolls scenarioState ⟨0.2, 100, 40, 1⟩ 1 2 rfl
    scenario_estimate (by norm_num [rollAreaM2, scenarioState])
    (by norm_num) (by norm_num)

/-- C5: for any point sequence with at least 3 points, the shoelace area
of the estimator is unchanged by reversing the sequence and by any cyclic
rotation of it. -/
theorem c5_shoelace_invariance (pts : List Point) (k : ℕ)
    (h : 3 ≤ pts.length) :
    areaNormalizedOf pts.reverse = areaNormalizedOf pts ∧
    areaNormalizedOf (pts.rotate k) = areaNormalizedOf pts := by
  unfold areaNormalizedOf
  rw [shoelaceSum_reverse, abs_neg, shoelaceSum_rotate]
  exact ⟨rfl, rfl⟩

theorem c5_shoelace_invariance_witness :
    3 ≤ scenarioMask.length ∧
    (areaNormalizedOf scenarioMask.reverse = areaNormalizedOf scenarioMask ∧
     areaNormalizedOf (scenarioMask.rotate 2) = areaNormalizedOf scenarioMask) :=
  ⟨by norm_num [scenarioMask],
    c5_shoelace_invariance scenarioMask 2 (by norm_num [scenarioMask])⟩

/-- C6 (amended): for the calibration segment of normalized length 0.1
declared as 100 cm the scale factor is 1000 cm per unit; a wall polygon
of normalized area 0.002 has physical area 0.002 * 1000^2 = 2000 cm² =
0.2 m²; with an INDIVIDUAL roll of width 53 cm and length 10 m
(rollAreaM2 = 5.3) the estimator returns
rollsRequired = ceil(0.2 * 1.1 / 5.3) = 1. -/
theorem c6_end_to_end_scenario :
    calCmPerUnit scenarioCal = 1000 ∧
    areaNormalizedOf scenarioMask = 0.002 ∧
    estimateProject scenarioState = some ⟨0.2, 100, 40, 1⟩ :=
  ⟨scenario_calCmPerUnit, scenario_area, scenario_estimate⟩

/-- C6 (counterexample): on the claim's own scenario the estimator
returns 1 roll, not 42 (0.002 * 1000² is 2000 cm², not 2,000,000 cm²). -/
theorem c6_rolls_counterexample :
    Option.map EstimateResult.rolls (estimateProject scenarioState) = some 1 ∧
    (1 : ℤ) ≠ 42 := by
  rw [scenario_estimate]
  exact ⟨rfl, by decide⟩

/-- C7: in CALIBRATE mode a pointer-down at `q` starts a new segment
(`p1 := q`, `p2` cleared) when `p1` is null or both points are set, and
otherwise completes the segment (`p2 := q`, `p1` kept);
`realWorldValueCm` is unchanged in both cases, and the handler is a total
function of every calibration state, including a half-completed
segment. -/
theorem c7_calibrate_click (w : WorkspaceModel) (q : Point) :
    (handleMouseDown ToolMode.CALIBRATE w q).calibration.realWorldValueCm
        = w.calibration.realWorldValueCm ∧
    ((w.calibration.p1 = none ∨
        (w.calibration.p1 ≠ none ∧ w.calibration.p2 ≠ none)) →
      (handleMouseDown ToolMode.CALIBRATE w q).calibration.p1 = some q ∧
      (handleMouseDown ToolMode.CALIBRATE w q).calibration.p2 = none) ∧
    (∀ p, w.calibration.p1 = some p → w.calibration.p2 = none →
      (handleMouseDown ToolMode.CALIBRATE w q).calibration.p1 = some p ∧
      (handleMouseDown ToolMode.CALIBRATE w q).calibration.p2 = some q) := by
  rcases hc1 : w.calibration.p1 with _ | p1 <;>
    rcases hc2 : w.calibration.p2 with _ | p2 <;>
      simp [handleMouseDown, hc1, hc2]

theorem c7_calibrate_click_witness :
    (handleMouseDown ToolMode.CALIBRATE halfCal ⟨0.5, 0.5⟩).calibration.p1
        = some ⟨0.2, 0.2⟩ ∧
    (handleMouseDown ToolMode.CALIBRATE halfCal ⟨0.5, 0.5⟩).calibration.p2
        = some ⟨0.5, 0.5⟩ :=
  (c7_calibrate_click halfCal ⟨0.5, 0.5⟩).2.2 ⟨0.2, 0.2⟩ rfl rfl

/-- C8: `renderWallpaper` never returns success without image data (an
inline-data-free response yields the "No image data" failure, not an
empty success); an upstream error whose message includes "Requested
entity was not found" is remapped to KEY_RESET_REQUIRED, and every other
error is propagated unchanged. -/
theorem c8_render_error_mapping (key : String) (parts : List Part)
    (e : String) (hno : firstInlineData parts = none) :
    renderWallpaper (some key) (Except.ok parts)
        = Except.error "No image data returned from AI." ∧
    (strIncludes e "Requested entity was not found" = true →
      renderWallpaper (some key) (Except.error e)
        = Except.error "KEY_RESET_REQUIRED") ∧
    (strIncludes e "Requested entity was not found" = false →
      renderWallpaper (some key) (Except.error e) = Except.error e) := by
  refine ⟨?_, ?_, ?_⟩
  · have hf : strIncludes "No image data returned from AI."
        "Requested entity was not found" = false := by decide
    simp [renderWallpaper, renderTryBody, hno, hf]
  · intro h
    simp [renderWallpaper, renderTryBody, h]
  · intro h
    simp [renderWallpaper, renderTryBody, h]

theorem c8_render_error_mapping_witness :
    renderWallpaper (some "k") (Except.ok [])
        = Except.error "No image data returned from AI." ∧
    renderWallpaper (some "k")
        (Except.error "Error: Requested entity was not found.")
        = Except.error "KEY_RESET_REQUIRED" :=
  ⟨(c8_render_error_mapping "k" [] "x" rfl).1,
    (c8_render_error_mapping "k" []
      "Error: Requested entity was not found." rfl).2.1 (by decide)⟩

/-- C9: when the estimator guard passes (`pixelsPerCm` truthy and at
least 3 mask points) the calibration points are non-null and their
normalized distance is nonzero, so the non-null assertions and the
division `realWorldValueCm / distCalNormalized` inside `estimateProject`
are safe and a result is produced. -/
theorem c9_guard_implies_safety (s : AppState)
    (hpx : (pixelsPerCm s.calibration).getD 0 ≠ 0)
    (hlen : 3 ≤ s.wallMask.length) :
    ∃ p1 p2, s.calibration.p1 = some p1 ∧ s.calibration.p2 = some p2 ∧
      distCalNormalized p1 p2 ≠ 0 ∧ (estimateProject s).isSome = true := by
  have hdisj := (pixelsPerCm_falsy_iff s.calibration).not.mp hpx
  push_neg at hdisj
  obtain ⟨hp1, hp2, hv, hne⟩ := hdisj
  rcases hc1 : s.calibration.p1 with _ | p1
  · exact absurd hc1 hp1
  rcases hc2 : s.calibration.p2 with _ | p2
  · exact absurd hc2 hp2
  have hg : ¬ ((pixelsPerCm s.calibration).getD 0 = 0
      ∨ s.wallMask.length < 3) := by
    rw [not_or]
    exact ⟨hpx, by omega⟩
  refine ⟨p1, p2, rfl, rfl, ?_, ?_⟩
  · rw [Ne, distCalNormalized_eq_zero_iff]
    intro hEq
    exact hne (by rw [hc1, hc2, hEq])
  · rw [estimateProject_eq_some s p1 p2 hc1 hc2 hg]
    rfl

theorem c9_guard_implies_safety_witness :
    ∃ p1 p2, scenarioState.calibration.p1 = some p1 ∧
      scenarioState.calibration.p2 = some p2 ∧
      distCalNormalized p1 p2 ≠ 0 ∧
      (estimateProject scenarioState).isSome = true :=
  c9_guard_implies_safety scenarioState
    (fun h => scenario_guard (Or.inl h))
    (by norm_num [scenarioState, scenarioMask])

/-- C10: uploading a room (resp. swatch) image sets exactly that image
field, resets `renderedResult` to null, and leaves every other state
field — calibration, wallMask, swatchType, panoramaSpecs,
individualRollSpecs, errorMessage, isRendering — unchanged. -/
theorem c10_upload_effect (s : AppState) (b : String) :
    ((handleFileUpload s UploadType.room b).roomImage = some b ∧
     (handleFileUpload s UploadType.room b).swatchImage = s.swatchImage ∧
     (handleFileUpload s UploadType.swatch b).swatchImage = some b ∧
     (handleFileUpload s UploadType.swatch b).roomImage = s.roomImage) ∧
    (∀ t, (handleFileUpload s t b).renderedResult = none ∧
      (handleFileUpload s t b).calibration = s.calibration ∧
      (handleFileUpload s t b).wallMask = s.wallMask ∧
      (handleFileUpload s t b).swatchType = s.swatchType ∧
      (handleFileUpload s t b).panoramaSpecs = s.panoramaSpecs ∧
      (handleFileUpload s t b).individualRollSpecs = s.individualRollSpecs ∧
      (handleFileUpload s t b).errorMessage = s.errorMessage ∧
      (handleFileUpload s t b).isRendering = s.isRendering) := by
  refine ⟨⟨rfl, rfl, rfl, rfl⟩, ?_⟩
  intro t
  cases t <;> exact ⟨rfl, rfl, rfl, rfl, rfl, rfl, rfl, rfl⟩

end Wallpaper
